import Mathlib

/-!
Verification of the notification resolution and deduplication engine of
`forecast.py` (weather-forecast / weather-warning Telegram bot).

The Python source is shallowly embedded: module-level caches become explicit
state arguments, the external world (HTTP fetches, filesystem checks, the
Telegram API) becomes an explicit environment of outcome oracles, and raised
exceptions become explicit abort flags / `Option` results.  Python dicts whose
fields may be missing are embedded as structures with `Option` fields; a
missing field read (`KeyError`) aborts exactly where the source would raise.
-/

namespace TGF

/-- Split a character list on a single separator character, keeping empty
segments (the semantics of Python `str.split(sep)` / `String.splitOn` for a
one-character separator). -/
def splitOnChar (sep : Char) : List Char → List (List Char)
  | [] => [[]]
  | c :: cs =>
    if c = sep then [] :: splitOnChar sep cs
    else
      match splitOnChar sep cs with
      | [] => [[c]]
      | g :: gs => (c :: g) :: gs

/-- Python `str.upper()` (ASCII inputs in this program). -/
def strUpper (s : String) : String := ⟨s.data.map Char.toUpper⟩

/-- Python `str.capitalize()`: first character upper-cased, the rest
lower-cased (ASCII inputs in this program). -/
def pyCapitalize (s : String) : String :=
  match s.data with
  | [] => ""
  | c :: cs => ⟨c.toUpper :: cs.map Char.toLower⟩

/-- Python whitespace for `str.strip()` (ASCII whitespace; the upstream
codes are ASCII). -/
def pyIsSpace (c : Char) : Bool :=
  c = ' ' || c = '\t' || c = '\n' || c = '\r' || c = '\x0b' || c = '\x0c'

/-- Python `str.strip()`. -/
def pyStrip (s : String) : String :=
  ⟨((s.data.dropWhile pyIsSpace).reverse.dropWhile pyIsSpace).reverse⟩

/-- Value of a list of decimal digit characters. -/
def digitsToNat (cs : List Char) : Nat :=
  cs.foldl (fun n c => n * 10 + (c.toNat - 48)) 0

/-- Zero-pad a numeral to two digits, as `strftime` does for
`%H`, `%M`, `%d`, `%m`. -/
def pad2 (n : Nat) : String :=
  if n < 10 then "0" ++ toString n else toString n

/-- Gregorian leap-year test, as used by `datetime` to validate a day. -/
def isLeap (y : Nat) : Bool :=
  (y % 4 == 0 && y % 100 != 0) || y % 400 == 0

/-- Number of days of month `m` in year `y` (`datetime` calendar check). -/
def daysInMonth (y m : Nat) : Nat :=
  if m == 2 then (if isLeap y then 29 else 28)
  else if m == 4 || m == 6 || m == 9 || m == 11 then 30
  else 31

/-- `strptime` field `%Y`: exactly four digits. -/
def parseYear (cs : List Char) : Option Nat :=
  if cs.length == 4 && cs.all Char.isDigit then some (digitsToNat cs) else none

/-- `strptime` numeric field of one or two digits whose value lies in
`[lo, hi]` (covers `%m`, `%d`, `%H`, `%M`, `%S` of the format used). -/
def parseNum2 (lo hi : Nat) (cs : List Char) : Option Nat :=
  if (cs.length == 1 || cs.length == 2) && cs.all Char.isDigit then
    let v := digitsToNat cs
    if lo ≤ v && v ≤ hi then some v else none
  else none

/-- A parsed timestamp (the fields `datetime.strptime` extracts from the
format `%Y-%m-%dT%H:%M:%S`). -/
structure DT where
  year : Nat
  month : Nat
  day : Nat
  hour : Nat
  minute : Nat
  second : Nat
deriving DecidableEq, Repr

/-- `datetime.strptime(s, "%Y-%m-%dT%H:%M:%S")`: literal separators, four
digit year, one-or-two-digit numeric fields, and a calendar-valid day.
Returns `none` where the source raises `ValueError`. -/
def strptimeDT (s : String) : Option DT :=
  match splitOnChar 'T' s.data with
  | [d, t] =>
    match splitOnChar '-' d, splitOnChar ':' t with
    | [ys, ms, ds], [hs, mis, ss] => do
      let y ← parseYear ys
      let mo ← parseNum2 1 12 ms
      let da ← parseNum2 1 31 ds
      let h ← parseNum2 0 23 hs
      let mi ← parseNum2 0 59 mis
      let se ← parseNum2 0 59 ss
      if da ≤ daysInMonth y mo then
        some ⟨y, mo, da, h, mi, se⟩
      else
        none
    | _, _ => none
  | _ => none

/-- `strftime("%H:%M %d-%m-%Y")` on a parsed timestamp. -/
def strftimeWarn (d : DT) : String :=
  pad2 d.hour ++ ":" ++ pad2 d.minute ++ " " ++
  pad2 d.day ++ "-" ++ pad2 d.month ++ "-" ++ toString d.year

/-- The per-timestamp pretty-printing of `job_warnings` (lines 338-346):
reformat on parse success, else best-effort fallback
`raw.replace("T", " ")`. -/
def prettyWarnTime (s : String) : String :=
  match strptimeDT s with
  | some d => strftimeWarn d
  | none => ⟨s.data.map (fun c => if c = 'T' then ' ' else c)⟩

/-- Python `int(s)` on an already-stripped string: optional sign followed by
at least one digit; `none` where `int` raises `ValueError`. -/
def parsePyInt (s : String) : Option Int :=
  match s.data with
  | [] => none
  | c :: cs =>
    if c = '-' then
      if !cs.isEmpty && cs.all Char.isDigit then some (-(digitsToNat cs : Int))
      else none
    else if c = '+' then
      if !cs.isEmpty && cs.all Char.isDigit then some (digitsToNat cs : Int)
      else none
    else if (c :: cs).all Char.isDigit then some (digitsToNat (c :: cs) : Int)
    else none

/-- `WEATHER_TYPES_FALLBACK` (lines 40-54): the static local weather-type
table used when the remote endpoint fails, as an association list. -/
def WEATHER_TYPES_FALLBACK : List (Int × String) :=
  [(0, "Sem informação"), (1, "Céu limpo"), (2, "Céu pouco nublado"),
   (3, "Céu parcialmente nublado"), (4, "Céu muito nublado ou encoberto"),
   (5, "Céu nublado por nuvens altas"), (6, "Aguaceiros/chuva"),
   (7, "Aguaceiros/chuva fracos"), (8, "Aguaceiros/chuva fortes"),
   (9, "Chuva/aguaceiros"), (10, "Chuva fraca ou chuvisco"),
   (11, "Chuva/aguaceiros forte"), (12, "Períodos de chuva"),
   (13, "Períodos de chuva fraca"), (14, "Períodos de chuva forte"),
   (15, "Chuvisco"), (16, "Neblina"), (17, "Nevoeiro ou nuvens baixas"),
   (18, "Neve"), (19, "Trovoada"), (20, "Aguaceiros e possibilidade de trovoada"),
   (21, "Granizo"), (22, "Geada"), (23, "Chuva e possibilidade de trovoada"),
   (24, "Nebulosidade convectiva"), (25, "Céu com períodos de muito nublado"),
   (26, "Nevoeiro"), (27, "Céu nublado"), (28, "Aguaceiros de neve"),
   (29, "Chuva e Neve"), (30, "Chuva e Neve"), (-99, "---")]

/-- Insertion into a Python-dict model: replace the value when the key is
already bound, append otherwise. -/
def dictInsert (m : List (Int × String)) (k : Int) (v : String) :
    List (Int × String) :=
  if m.any (fun p => p.1 == k) then
    m.map (fun p => if p.1 == k then (k, v) else p)
  else m ++ [(k, v)]

/-- The dict comprehension of `load_weather_types` (line 124): each fetched
item carries a numeric id and an optional PT description; a missing
description defaults to the synthesized `Desconhecido (<id>)` string. -/
def buildWeatherMapping (data : List (Int × Option String)) :
    List (Int × String) :=
  data.foldl
    (fun m it =>
      dictInsert m it.1 (it.2.getD ("Desconhecido (" ++ toString it.1 ++ ")")))
    []

/-- `load_weather_types` (lines 106-130), first (cache-cold) call.
`cfgUrl` models whether `WEATHER_TYPES_URL` is configured; `fetch = none`
models any fetch/parse exception.  An empty fetched mapping also falls back
to the static table. -/
def load_weather_types (cfgUrl : Bool) (fetch : Option (List (Int × Option String))) :
    List (Int × String) :=
  if !cfgUrl then WEATHER_TYPES_FALLBACK
  else
    match fetch with
    | none => WEATHER_TYPES_FALLBACK
    | some data =>
      let m := buildWeatherMapping data
      if m.isEmpty then WEATHER_TYPES_FALLBACK else m

/-- The weather-description resolution of `job_forecast` (line 285):
`weather_map.get(int(code), str(code))` — a lookup miss yields the bare
stringified code. -/
def weatherDesc (m : List (Int × String)) (code : Int) : String :=
  (m.lookup code).getD (toString code)

/-- `resolve_wind_desc` (lines 162-176): strip and `int()`-normalize the raw
code; on success look it up in the wind map with the raw string as default;
on a normalization exception return the raw string unchanged. -/
def resolve_wind_desc (windMap : List (Int × String)) (raw : String) : String :=
  match parsePyInt (pyStrip raw) with
  | some n => (windMap.lookup n).getD raw
  | none => raw

/-- Environment of one `get_location_name` call: whether `DISTRICTS_URL` is
configured (non-empty), and the fetched area table as
(idAreaAviso, local) pairs — `none` models a fetch failure or a malformed
payload (any exception inside the `try`). -/
structure LocEnv where
  districtsConfigured : Bool
  fetch : Option (List (String × String))

/-- Result of one `get_location_name` call: the returned name, the new value
of `location_name_cache`, and whether a remote fetch was performed. -/
structure LocOut where
  result : String
  cache : String
  fetched : Bool
deriving DecidableEq, Repr

/-- `get_location_name` (lines 82-104) as an explicit state transition on
the module-level `location_name_cache` string (empty string = unpopulated,
mirroring Python truthiness of `if location_name_cache:`). -/
def get_location_name (areaId : String) (env : LocEnv) (cache : String) :
    LocOut :=
  if cache == "" then
    if !env.districtsConfigured then ⟨areaId, areaId, false⟩
    else
      match env.fetch with
      | none => ⟨areaId, areaId, true⟩
      | some data =>
        match data.find? (fun it => it.1 == areaId) with
        | some it => ⟨it.2, it.2, true⟩
        | none => ⟨areaId, areaId, true⟩
  else ⟨cache, cache, false⟩

/-- `f"w_ic_d_0{wid}"` / `f"w_ic_d_{wid}"` base-name derivation of
`get_local_image_path` (lines 200-204). -/
def imageBase (wid : Int) : String :=
  if wid < 10 then "w_ic_d_0" ++ toString wid else "w_ic_d_" ++ toString wid

/-- `get_local_image_path` (lines 189-216): try `images/<base>.tgs`, then
`images/<base>.png`, else `None`.  `ex` models `os.path.exists`. -/
def get_local_image_path (ex : String → Bool) (wid : Int) : Option String :=
  let base := imageBase wid
  let tgsPath := "images/" ++ base ++ ".tgs"
  if ex tgsPath then some tgsPath
  else
    let pngPath := "images/" ++ base ++ ".png"
    if ex pngPath then some pngPath else none

/-- `WARNING_STICKERS` (lines 69-78): warning-type name → dedicated sticker
file name. -/
def WARNING_STICKERS : List (String × String) :=
  [("Agitação Marítima", "coastalevent.tgs"), ("Nevoeiro", "fog.tgs"),
   ("Tempo Quente", "high-temperature.tgs"), ("Tempo Frio", "low-temperature.tgs"),
   ("Precipitação", "rain.tgs"), ("Neve", "snow-ice.tgs"),
   ("Trovoada", "thunderstorm.tgs"), ("Vento", "wind.tgs")]

/-- Observable actions of a warnings/dispatch cycle: the three outbound
Telegram calls (each tagged with whether the HTTP call succeeded) and the
mutation of `sent_warnings_cache`. -/
inductive Ev where
  | sendSticker (path : String) (ok : Bool)
  | sendPhoto (path : String) (caption : String) (ok : Bool)
  | sendText (msg : String) (ok : Bool)
  | markSeen (id : String)
deriving DecidableEq, Repr

/-- The external world of one cycle: Telegram credentials configured
(`BOT_TOKEN` and `CHAT_ID` both set), `os.path.exists`, whether opening a
local file succeeds, and whether each outbound HTTP post succeeds
(`raise_for_status` included). -/
structure Env where
  configured : Bool
  assetExists : String → Bool
  openOk : String → Bool
  postMediaOk : String → Bool
  postTextOk : String → Bool

/-- `send_message_text` (lines 262-272): no-op when unconfigured; otherwise
one text post whose failure is caught and logged (never raises). -/
def send_message_text (env : Env) (msg : String) : List Ev :=
  if env.configured then [Ev.sendText msg (env.postTextOk msg)] else []

/-- `os.path.splitext(path)[1].lower()` for the paths this program builds
(`images/<name>.<ext>`): the substring from the last dot, lower-cased;
empty when the path has no dot. -/
def lowerExt (path : String) : String :=
  match splitOnChar '.' path.data with
  | [] => ""
  | [_] => ""
  | ps => ⟨'.' :: (ps.getLastD []).map Char.toLower⟩

/-- `send_telegram_media` (lines 226-260).  A `.tgs` extension selects the
sticker endpoint (no caption, hence a follow-up plain-text send on success);
anything else the photo endpoint with the caption attached.  A failed file
open raises before any post; a failed post is caught after the attempt; both
fall back to `send_message_text(caption)`.  Never raises. -/
def send_telegram_media (env : Env) (caption : String) (imagePath : String) :
    List Ev :=
  if !env.configured then []
  else if lowerExt imagePath == ".tgs" then
    if env.openOk imagePath then
      if env.postMediaOk imagePath then
        Ev.sendSticker imagePath true :: send_message_text env caption
      else
        Ev.sendSticker imagePath false :: send_message_text env caption
    else send_message_text env caption
  else
    if env.openOk imagePath then
      if env.postMediaOk imagePath then [Ev.sendPhoto imagePath caption true]
      else Ev.sendPhoto imagePath caption false :: send_message_text env caption
    else send_message_text env caption

/-- `get_warning_sticker_path` (lines 218-224). -/
def get_warning_sticker_path (env : Env) (awarenessType : String) :
    Option String :=
  match WARNING_STICKERS.lookup awarenessType with
  | none => none
  | some fn =>
    let path := "images/" ++ fn
    if env.assetExists path then some path else none

/-- One upstream warning JSON object.  Each field is optional: `none`
models the key being absent from the object, in which case the source's
`w['key']` read raises `KeyError`. -/
structure RawWarning where
  idAreaAviso : Option String
  awarenessTypeName : Option String
  awarenessLevelID : Option String
  startTime : Option String
  endTime : Option String
  text : Option String
deriving DecidableEq, Repr

/-- The warning identity string `f"{idAreaAviso}_{awarenessTypeName}_{startTime}"`
(line 336), read off a record (defaults only pad the unreachable
missing-field case). -/
def identOf (w : RawWarning) : String :=
  (w.idAreaAviso.getD "") ++ "_" ++ (w.awarenessTypeName.getD "") ++ "_" ++
    (w.startTime.getD "")

/-- The severity-label resolution (lines 348-356): a static dict indexed by
`awarenessLevelID.upper()`, `KeyError` falling back to
`awarenessLevelID.capitalize()`. -/
def awareness_label (lv : String) : String :=
  let u := strUpper lv
  if u == "YELLOW" then "🟡 Alerta Amarelo"
  else if u == "ORANGE" then "🟠 Alerta Laranja"
  else if u == "RED" then "🔴 Alerta Vermelho"
  else if u == "GREEN" then "🟢 Alerta Verde"
  else pyCapitalize lv

/-- The warning message template (lines 358-369). -/
def warning_msg (locName typeName label pStart pEnd txt : String) : String :=
  "⚠️ *AVISO IPMA:*\n\n📍 Região: *" ++ locName ++ "*\n🔔 " ++ typeName ++
  "\n" ++ label ++ "\n🕒 " ++ pStart ++ " até " ++ pEnd ++ "\n\n📝 " ++ txt ++
  "\n\n🌍 Fonte: [ipma.pt](https://www.ipma.pt/pt/otempo/prev-sam/)"

/-- The relevance filter (line 330):
`[w for w in data if w['idAreaAviso'] == AREA_ID and w['awarenessLevelID'] != 'green']`.
A missing key raises (`Except.error`), aborting the whole comprehension; the
`and` short-circuits, so `awarenessLevelID` is only read when the area
matches. -/
def relevant_filter (areaId : String) : List RawWarning → Except Unit (List RawWarning)
  | [] => Except.ok []
  | w :: ws =>
    match w.idAreaAviso with
    | none => Except.error ()
    | some a =>
      if a == areaId then
        match w.awarenessLevelID with
        | none => Except.error ()
        | some lv =>
          if lv == "green" then relevant_filter areaId ws
          else (relevant_filter areaId ws).map (fun l => w :: l)
      else relevant_filter areaId ws

/-- Result of one warnings cycle: the dispatch/cache events in order, the
notifications built (source record paired with the built message, in order),
the final `sent_warnings_cache`, and whether the cycle was aborted by an
uncaught exception (caught only by the outer handler at line 379). -/
structure CycleOut where
  events : List Ev
  notifs : List (RawWarning × String)
  seen : List String
  aborted : Bool

/-- The `for w in relevant:` loop of `job_warnings` (lines 335-378).
Reads of `idAreaAviso`, `awarenessTypeName`, `startTime` happen while
building `w_id`; for an unseen identity the remaining fields are read while
formatting (a missing `endTime` raises even in the `except` fallback, which
re-reads it).  A missing field aborts the loop, keeping the effects already
performed.  The identity is added to the cache after the dispatch call
returns. -/
def job_warnings_loop (env : Env) (locName : String) (seen : List String) :
    List RawWarning → CycleOut
  | [] => ⟨[], [], seen, false⟩
  | w :: ws =>
    match w.idAreaAviso, w.awarenessTypeName, w.startTime with
    | some a, some tn, some st =>
      let wId := a ++ "_" ++ tn ++ "_" ++ st
      if wId ∈ seen then job_warnings_loop env locName seen ws
      else
        match w.endTime, w.awarenessLevelID, w.text with
        | some et, some lv, some txt =>
          let msg := warning_msg locName tn (awareness_label lv)
            (prettyWarnTime st) (prettyWarnTime et) txt
          let evs :=
            match get_warning_sticker_path env tn with
            | some p => send_telegram_media env msg p
            | none => send_message_text env msg
          let rest := job_warnings_loop env locName (seen ++ [wId]) ws
          ⟨evs ++ Ev.markSeen wId :: rest.events, (w, msg) :: rest.notifs,
           rest.seen, rest.aborted⟩
        | _, _, _ => ⟨[], [], seen, true⟩
    | _, _, _ => ⟨[], [], seen, true⟩

/-- `job_warnings` (lines 322-380) given the already-fetched warnings feed
`data` (the fetch itself is an external collaborator).  A filter exception
aborts the cycle before any effect; an empty relevant list is a no-op
cycle. -/
def job_warnings (env : Env) (areaId locName : String) (seen : List String)
    (data : List RawWarning) : CycleOut :=
  match relevant_filter areaId data with
  | Except.error _ => ⟨[], [], seen, true⟩
  | Except.ok [] => ⟨[], [], seen, false⟩
  | Except.ok rel => job_warnings_loop env locName seen rel

/-- All six JSON keys present on a warning record. -/
def fieldsPresent (w : RawWarning) : Bool :=
  w.idAreaAviso.isSome && w.awarenessTypeName.isSome &&
  w.awarenessLevelID.isSome && w.startTime.isSome &&
  w.endTime.isSome && w.text.isSome

/-! ### Concrete inputs used by witnesses and counterexamples -/

/-- Environment: Telegram configured, no local assets on disk, all HTTP
posts succeed. -/
def envNoAssets : Env := ⟨true, fun _ => false, fun _ => true, fun _ => true, fun _ => true⟩

/-- Environment: Telegram configured, every asset exists, every call
succeeds. -/
def envAll : Env := ⟨true, fun _ => true, fun _ => true, fun _ => true, fun _ => true⟩

/-- A location environment whose area table maps "AVR" to "Aveiro". -/
def locEnvAveiro : LocEnv := ⟨true, some [("AVR", "Aveiro")]⟩

/-- A green-severity warning for area AVR. -/
def cwGreen1 : RawWarning :=
  ⟨some "AVR", some "Vento", some "green", some "2024-01-01T10:00:00",
   some "2024-01-01T18:00:00", some "Aviso A"⟩

/-- Same area, type and start time as `cwGreen1` but orange severity,
different end time and different free text. -/
def cwOrange2 : RawWarning :=
  ⟨some "AVR", some "Vento", some "orange", some "2024-01-01T10:00:00",
   some "2024-01-02T00:00:00", some "Aviso B"⟩

/-- An ordinary orange warning for area AVR. -/
def cwOrangeA : RawWarning :=
  ⟨some "AVR", some "Vento", some "orange", some "2024-01-01T10:00:00",
   some "2024-01-01T18:00:00", some "Vento forte"⟩

/-- A warning record whose `text` key is absent. -/
def cwNoText : RawWarning :=
  ⟨some "AVR", some "Trovoada", some "red", some "2024-01-02T00:00:00",
   some "2024-01-02T06:00:00", none⟩

/-- A complete yellow warning with an identity distinct from the others. -/
def cwYellow3 : RawWarning :=
  ⟨some "AVR", some "Precipitação", some "yellow", some "2024-01-03T00:00:00",
   some "2024-01-03T06:00:00", some "Chuva"⟩

/-! ### Invariants of the warnings loop -/

theorem job_warnings_loop_seen (env : Env) (loc : String) (ws : List RawWarning) :
    ∀ seen : List String,
    (job_warnings_loop env loc seen ws).seen =
      seen ++ (job_warnings_loop env loc seen ws).notifs.map (fun p => identOf p.1) := by
  induction ws with
  | nil => intro seen; simp [job_warnings_loop]
  | cons w ws ih =>
    intro seen
    obtain ⟨a, tn, lv, st, et, tx⟩ := w
    cases a with
    | none => simp [job_warnings_loop]
    | some a =>
      cases tn with
      | none => simp [job_warnings_loop]
      | some tn =>
        cases st with
        | none => simp [job_warnings_loop]
        | some st =>
          simp only [job_warnings_loop]
          by_cases hm : (a ++ "_" ++ tn ++ "_" ++ st) ∈ seen
          · simp only [if_pos hm]
            exact ih seen
          · simp only [if_neg hm]
            cases et with
            | none => simp
            | some et =>
              cases lv with
              | none => simp
              | some lv =>
                cases tx with
                | none => simp
                | some tx =>
                  simp only [List.map_cons]
                  rw [ih (seen ++ [a ++ "_" ++ tn ++ "_" ++ st])]
                  simp [identOf, List.append_assoc]

theorem job_warnings_loop_mem (env : Env) (loc : String) (ws : List RawWarning) :
    ∀ (seen : List String) (p : RawWarning × String),
    p ∈ (job_warnings_loop env loc seen ws).notifs →
    identOf p.1 ∉ seen ∧ p.1 ∈ ws ∧ fieldsPresent p.1 = true := by
  induction ws with
  | nil => intro seen p hp; simp [job_warnings_loop] at hp
  | cons w ws ih =>
    intro seen p hp
    obtain ⟨a, tn, lv, st, et, tx⟩ := w
    cases a with
    | none => simp [job_warnings_loop] at hp
    | some a =>
      cases tn with
      | none => simp [job_warnings_loop] at hp
      | some tn =>
        cases st with
        | none => simp [job_warnings_loop] at hp
        | some st =>
          simp only [job_warnings_loop] at hp
          by_cases hm : (a ++ "_" ++ tn ++ "_" ++ st) ∈ seen
          · rw [if_pos hm] at hp
            obtain ⟨h1, h2, h3⟩ := ih seen p hp
            exact ⟨h1, List.mem_cons_of_mem _ h2, h3⟩
          · rw [if_neg hm] at hp
            cases et with
            | none => simp at hp
            | some et =>
              cases lv with
              | none => simp at hp
              | some lv =>
                cases tx with
                | none => simp at hp
                | some tx =>
                  simp only [List.mem_cons] at hp
                  rcases hp with hp | hp
                  · subst hp
                    refine ⟨?_, List.mem_cons_self _ _, by simp [fieldsPresent]⟩
                    simpa [identOf] using hm
                  · obtain ⟨h1, h2, h3⟩ := ih (seen ++ [a ++ "_" ++ tn ++ "_" ++ st]) p hp
                    exact ⟨fun hc => h1 (List.mem_append_left _ hc),
                           List.mem_cons_of_mem _ h2, h3⟩

theorem job_warnings_loop_nodup (env : Env) (loc : String) (ws : List RawWarning) :
    ∀ seen : List String,
    ((job_warnings_loop env loc seen ws).notifs.map (fun p => identOf p.1)).Nodup := by
  induction ws with
  | nil => intro seen; simp [job_warnings_loop]
  | cons w ws ih =>
    intro seen
    obtain ⟨a, tn, lv, st, et, tx⟩ := w
    cases a with
    | none => simp [job_warnings_loop]
    | some a =>
      cases tn with
      | none => simp [job_warnings_loop]
      | some tn =>
        cases st with
        | none => simp [job_warnings_loop]
        | some st =>
          simp only [job_warnings_loop]
          by_cases hm : (a ++ "_" ++ tn ++ "_" ++ st) ∈ seen
          · rw [if_pos hm]; exact ih seen
          · rw [if_neg hm]
            cases et with
            | none => simp
            | some et =>
              cases lv with
              | none => simp
              | some lv =>
                cases tx with
                | none => simp
                | some tx =>
                  simp only [List.map_cons, List.nodup_cons]
                  refine ⟨?_, ih _⟩
                  intro hmem
                  obtain ⟨p, hp, hid⟩ := List.mem_map.mp hmem
                  obtain ⟨h1, _, _⟩ :=
                    job_warnings_loop_mem env loc ws (seen ++ [a ++ "_" ++ tn ++ "_" ++ st]) p hp
                  apply h1
                  rw [hid]
                  simp [identOf]

theorem job_warnings_loop_no_abort (env : Env) (loc : String) (ws : List RawWarning) :
    ∀ seen : List String, (∀ w ∈ ws, fieldsPresent w = true) →
    (job_warnings_loop env loc seen ws).aborted = false := by
  induction ws with
  | nil => intro seen _; simp [job_warnings_loop]
  | cons w ws ih =>
    intro seen hws
    have hw := hws w (List.mem_cons_self _ _)
    have hrest : ∀ x ∈ ws, fieldsPresent x = true :=
      fun x hx => hws x (List.mem_cons_of_mem _ hx)
    obtain ⟨a, tn, lv, st, et, tx⟩ := w
    simp only [fieldsPresent, Bool.and_eq_true, Option.isSome_iff_exists] at hw
    obtain ⟨⟨⟨⟨⟨⟨a', ha⟩, tn', htn⟩, lv', hlv⟩, st', hst⟩, et', het⟩, tx', htx⟩ := hw
    cases ha; cases htn; cases hlv; cases hst; cases het; cases htx
    simp only [job_warnings_loop]
    by_cases hm : (a' ++ "_" ++ tn' ++ "_" ++ st') ∈ seen
    · rw [if_pos hm]; exact ih seen hrest
    · rw [if_neg hm]
      exact ih _ hrest

theorem job_warnings_loop_suppress (env : Env) (loc : String) (ws : List RawWarning)
    (seen : List String) (q : RawWarning) (m : String) (hq : identOf q ∈ seen) :
    (q, m) ∉ (job_warnings_loop env loc seen ws).notifs := by
  intro hmem
  obtain ⟨h1, _, _⟩ := job_warnings_loop_mem env loc ws seen (q, m) hmem
  exact h1 hq

/-- In the loop, once a record `w1` has been encountered, no distinct later
record sharing its identity is ever notified: either `w1`'s identity was
already cached (so every same-identity record is skipped), or `w1` itself is
notified and caches it, or the cycle aborts at or before `w1`. -/
theorem job_warnings_loop_first (env : Env) (loc : String) (xs : List RawWarning) :
    ∀ (seen : List String) (ys : List RawWarning) (w1 w2 : RawWarning) (m : String),
    identOf w2 = identOf w1 → w2 ≠ w1 → w2 ∉ xs →
    (w2, m) ∉ (job_warnings_loop env loc seen (xs ++ w1 :: ys)).notifs := by
  induction xs with
  | nil =>
    intro seen ys w1 w2 m hid hne _ hmem
    simp only [List.nil_append] at hmem
    obtain ⟨a, tn, lv, st, et, tx⟩ := w1
    cases a with
    | none => simp [job_warnings_loop] at hmem
    | some a =>
      cases tn with
      | none => simp [job_warnings_loop] at hmem
      | some tn =>
        cases st with
        | none => simp [job_warnings_loop] at hmem
        | some st =>
          simp only [job_warnings_loop] at hmem
          by_cases hm : (a ++ "_" ++ tn ++ "_" ++ st) ∈ seen
          · rw [if_pos hm] at hmem
            refine job_warnings_loop_suppress env loc ys seen w2 m ?_ hmem
            rw [hid]; simpa [identOf] using hm
          · rw [if_neg hm] at hmem
            cases et with
            | none => simp at hmem
            | some et =>
              cases lv with
              | none => simp at hmem
              | some lv =>
                cases tx with
                | none => simp at hmem
                | some tx =>
                  simp only [List.mem_cons] at hmem
                  rcases hmem with hmem | hmem
                  · exact hne (congrArg Prod.fst hmem)
                  · refine job_warnings_loop_suppress env loc ys
                      (seen ++ [a ++ "_" ++ tn ++ "_" ++ st]) w2 m ?_ hmem
                    apply List.mem_append_right
                    rw [hid]; simp [identOf]
  | cons x xs ih =>
    intro seen ys w1 w2 m hid hne hxs hmem
    have hxne : w2 ≠ x := fun hc => hxs (hc ▸ List.mem_cons_self _ _)
    have hxs' : w2 ∉ xs := fun hc => hxs (List.mem_cons_of_mem _ hc)
    rw [List.cons_append] at hmem
    obtain ⟨a, tn, lv, st, et, tx⟩ := x
    cases a with
    | none => simp [job_warnings_loop] at hmem
    | some a =>
      cases tn with
      | none => simp [job_warnings_loop] at hmem
      | some tn =>
        cases st with
        | none => simp [job_warnings_loop] at hmem
        | some st =>
          simp only [job_warnings_loop] at hmem
          by_cases hm : (a ++ "_" ++ tn ++ "_" ++ st) ∈ seen
          · rw [if_pos hm] at hmem
            exact ih seen ys w1 w2 m hid hne hxs' hmem
          · rw [if_neg hm] at hmem
            cases et with
            | none => simp at hmem
            | some et =>
              cases lv with
              | none => simp at hmem
              | some lv =>
                cases tx with
                | none => simp at hmem
                | some tx =>
                  simp only [List.mem_cons] at hmem
                  rcases hmem with hmem | hmem
                  · exact hxne (congrArg Prod.fst hmem)
                  · exact ih _ ys w1 w2 m hid hne hxs' hmem

/-! ### The relevance filter -/

theorem relevant_filter_mem (areaId : String) (ws : List RawWarning) :
    ∀ l, relevant_filter areaId ws = Except.ok l →
    ∀ w ∈ l, w ∈ ws ∧ w.idAreaAviso = some areaId ∧
      ∃ lv, w.awarenessLevelID = some lv ∧ lv ≠ "green" := by
  induction ws with
  | nil =>
    intro l hl w hw
    simp only [relevant_filter, Except.ok.injEq] at hl
    subst hl; simp at hw
  | cons x xs ih =>
    intro l hl w hw
    obtain ⟨a, tn, lv, st, et, tx⟩ := x
    cases a with
    | none => simp [relevant_filter] at hl
    | some a =>
      simp only [relevant_filter] at hl
      by_cases ha : (a == areaId) = true
      · rw [if_pos ha] at hl
        cases lv with
        | none => simp at hl
        | some lv =>
          dsimp only at hl
          by_cases hg : (lv == "green") = true
          · rw [if_pos hg] at hl
            obtain ⟨h1, h2, h3⟩ := ih l hl w hw
            exact ⟨List.mem_cons_of_mem _ h1, h2, h3⟩
          · rw [if_neg hg] at hl
            cases hxs : relevant_filter areaId xs with
            | error e => rw [hxs] at hl; simp [Except.map] at hl
            | ok l' =>
              rw [hxs] at hl
              simp only [Except.map, Except.ok.injEq] at hl
              subst hl
              simp only [List.mem_cons] at hw
              rcases hw with hw | hw
              · subst hw
                refine ⟨List.mem_cons_self _ _, ?_, lv, rfl, ?_⟩
                · simp only [Option.some.injEq]
                  exact eq_of_beq ha
                · intro hc
                  exact hg (by rw [hc]; rfl)
              · obtain ⟨h1, h2, h3⟩ := ih l' hxs w hw
                exact ⟨List.mem_cons_of_mem _ h1, h2, h3⟩
      · rw [if_neg ha] at hl
        obtain ⟨h1, h2, h3⟩ := ih l hl w hw
        exact ⟨List.mem_cons_of_mem _ h1, h2, h3⟩

theorem relevant_filter_append (areaId : String) (xs : List RawWarning) :
    ∀ ys, relevant_filter areaId (xs ++ ys) =
      match relevant_filter areaId xs with
      | Except.error e => Except.error e
      | Except.ok l => (relevant_filter areaId ys).map (fun l2 => l ++ l2) := by
  induction xs with
  | nil =>
    intro ys
    simp only [List.nil_append, relevant_filter]
    cases h : relevant_filter areaId ys <;> simp [Except.map]
  | cons x xs ih =>
    intro ys
    rw [List.cons_append]
    obtain ⟨a, tn, lv, st, et, tx⟩ := x
    cases a with
    | none => simp [relevant_filter]
    | some a =>
      simp only [relevant_filter]
      by_cases ha : (a == areaId) = true
      · rw [if_pos ha, if_pos ha]
        cases lv with
        | none => simp
        | some lv =>
          dsimp only
          by_cases hg : (lv == "green") = true
          · rw [if_pos hg, if_pos hg]
            exact ih ys
          · rw [if_neg hg, if_neg hg]
            rw [ih ys]
            cases h1 : relevant_filter areaId xs with
            | error e => simp [Except.map]
            | ok l =>
              cases h2 : relevant_filter areaId ys <;> simp [Except.map]
      · rw [if_neg ha, if_neg ha]
        exact ih ys

theorem relevant_filter_ok (areaId : String) (ws : List RawWarning)
    (h : ∀ w ∈ ws, w.idAreaAviso.isSome ∧ w.awarenessLevelID.isSome) :
    ∃ l, relevant_filter areaId ws = Except.ok l := by
  induction ws with
  | nil => exact ⟨[], rfl⟩
  | cons x xs ih =>
    obtain ⟨l, hl⟩ := ih (fun w hw => h w (List.mem_cons_of_mem _ hw))
    obtain ⟨h1, h2⟩ := h x (List.mem_cons_self _ _)
    obtain ⟨a, tn, lv, st, et, tx⟩ := x
    obtain ⟨a', ha⟩ := Option.isSome_iff_exists.mp h1
    cases ha
    simp only [relevant_filter]
    by_cases hb : (a' == areaId) = true
    · rw [if_pos hb]
      obtain ⟨lv', hlv⟩ := Option.isSome_iff_exists.mp h2
      cases hlv
      dsimp only
      by_cases hg : (lv' == "green") = true
      · rw [if_pos hg]; exact ⟨l, hl⟩
      · rw [if_neg hg, hl]; exact ⟨_, rfl⟩
    · rw [if_neg hb]; exact ⟨l, hl⟩

/-! ### Invariants of the whole warnings cycle -/

theorem job_warnings_mem (env : Env) (areaId loc : String) (seen : List String)
    (data : List RawWarning) (p : RawWarning × String)
    (hp : p ∈ (job_warnings env areaId loc seen data).notifs) :
    identOf p.1 ∉ seen ∧ p.1 ∈ data ∧ fieldsPresent p.1 = true ∧
      p.1.idAreaAviso = some areaId ∧
      ∃ lv, p.1.awarenessLevelID = some lv ∧ lv ≠ "green" := by
  revert hp
  unfold job_warnings
  cases hf : relevant_filter areaId data with
  | error e => intro hp; simp at hp
  | ok rel =>
    cases rel with
    | nil => intro hp; simp at hp
    | cons r rs =>
      intro hp
      obtain ⟨h1, h2, h3⟩ := job_warnings_loop_mem env loc (r :: rs) seen p hp
      obtain ⟨h4, h5, h6⟩ := relevant_filter_mem areaId data (r :: rs) hf p.1 h2
      exact ⟨h1, h4, h3, h5, h6⟩

theorem job_warnings_seen (env : Env) (areaId loc : String) (seen : List String)
    (data : List RawWarning) :
    (job_warnings env areaId loc seen data).seen =
      seen ++ (job_warnings env areaId loc seen data).notifs.map (fun p => identOf p.1) := by
  unfold job_warnings
  cases hf : relevant_filter areaId data with
  | error e => simp
  | ok rel =>
    cases rel with
    | nil => simp
    | cons r rs => exact job_warnings_loop_seen env loc (r :: rs) seen

theorem job_warnings_nodup (env : Env) (areaId loc : String) (seen : List String)
    (data : List RawWarning) :
    ((job_warnings env areaId loc seen data).notifs.map (fun p => identOf p.1)).Nodup := by
  unfold job_warnings
  cases hf : relevant_filter areaId data with
  | error e => simp
  | ok rel =>
    cases rel with
    | nil => simp
    | cons r rs => exact job_warnings_loop_nodup env loc (r :: rs) seen

/-- `get_location_name` always stores exactly the value it returns in
`location_name_cache`. -/
theorem get_location_name_cache (areaId : String) (env : LocEnv) (cache : String) :
    (get_location_name areaId env cache).cache =
      (get_location_name areaId env cache).result := by
  unfold get_location_name
  by_cases hc : (cache == "") = true
  · rw [if_pos hc]
    by_cases hd : (!env.districtsConfigured) = true
    · rw [if_pos hd]
    · rw [if_neg hd]
      cases env.fetch with
      | none => rfl
      | some data =>
        dsimp only
        cases data.find? (fun it => it.1 == areaId) <;> rfl
  · rw [if_neg hc]

/-! ### Claims -/

/-- C3: every warning record whose severity level is the lowest ("green")
tier is excluded by the relevance filter, so no notification is ever built
for it in a warnings cycle, regardless of its other fields, the cache
state, the environment, or the rest of the feed. -/
theorem C3_green_never_notified (env : Env) (areaId loc : String)
    (seen : List String) (data : List RawWarning) (p : RawWarning × String)
    (hlv : p.1.awarenessLevelID = some "green") :
    p ∉ (job_warnings env areaId loc seen data).notifs := by
  intro hp
  obtain ⟨_, _, _, _, lv, hlv2, hne⟩ := job_warnings_mem env areaId loc seen data p hp
  rw [hlv] at hlv2
  exact hne (Option.some.inj hlv2.symm)

/-- Witness for C3: a concrete green record in a cycle that contains it is
not notified. -/
theorem C3_green_never_notified_w :
    (cwGreen1, "m") ∉ (job_warnings envNoAssets "AVR" "Aveiro" [] [cwGreen1]).notifs :=
  C3_green_never_notified envNoAssets "AVR" "Aveiro" [] [cwGreen1] (cwGreen1, "m") rfl

/-- C5 counterexample: the weather-type mapping populated from the static
fallback table lacks code 99; `job_forecast`'s lookup
(`weather_map.get(int(code), str(code))`, line 285) then yields the bare
stringified code "99", not the synthesized "Desconhecido (99)" string the
claim requires. -/
theorem C5_cex :
    weatherDesc (load_weather_types false none) 99 = "99" ∧
    weatherDesc (load_weather_types false none) 99 ≠ "Desconhecido (99)" := by
  constructor
  · decide
  · decide

/-- C5 (amended): a weather-type code absent from the populated mapping
resolves to the bare stringified code (never an error); the synthesized
"Desconhecido (<code>)" string arises only while building the mapping, as
the default description of a fetched entry that lacks its description
field. -/
theorem C5_lookup_miss (m : List (Int × String)) (code : Int)
    (h : m.lookup code = none) :
    weatherDesc m code = toString code ∧
    (buildWeatherMapping [(code, none)]).lookup code =
      some ("Desconhecido (" ++ toString code ++ ")") := by
  constructor
  · unfold weatherDesc; rw [h]; rfl
  · simp [buildWeatherMapping, dictInsert, List.lookup]

/-- Witness for C5 (amended) at code 99 against the fallback table. -/
theorem C5_lookup_miss_w :
    weatherDesc WEATHER_TYPES_FALLBACK 99 = toString (99 : Int) ∧
    (buildWeatherMapping [((99 : Int), none)]).lookup 99 =
      some ("Desconhecido (" ++ toString (99 : Int) ++ ")") :=
  C5_lookup_miss WEATHER_TYPES_FALLBACK 99 (by decide)

/-- C6 counterexample: with an empty configured area id (unset
`TARGET_AREA_ID`), the first call falls back to the id "" and caches "";
Python truthiness treats that cache as unpopulated, so the second call
performs a remote fetch again — the claim says second and later calls never
fetch. -/
theorem C6_cex :
    (get_location_name "" locEnvAveiro "").fetched = true ∧
    (get_location_name "" locEnvAveiro
        ((get_location_name "" locEnvAveiro "").cache)).fetched = true := by
  constructor
  · decide
  · decide

/-- C6 (amended): provided the first call's value is a non-empty string,
every later call returns that same value, stores it back unchanged, and
performs no remote fetch, whatever the later environment; an empty resolved
value leaves the cache looking unpopulated and later calls fetch again. -/
theorem C6_idempotent_nonempty (areaId : String) (env env2 : LocEnv)
    (h : (get_location_name areaId env "").result ≠ "") :
    get_location_name areaId env2 ((get_location_name areaId env "").cache) =
      ⟨(get_location_name areaId env "").result,
       (get_location_name areaId env "").result, false⟩ := by
  rw [get_location_name_cache areaId env ""]
  generalize (get_location_name areaId env "").result = r at h ⊢
  have hb : (r == "") = false := beq_eq_false_iff_ne.mpr h
  simp [get_location_name, hb]

/-- Witness for C6 (amended): after resolving "Aveiro", a repeat call
returns it without fetching. -/
theorem C6_idempotent_nonempty_w :
    get_location_name "AVR" locEnvAveiro
        ((get_location_name "AVR" locEnvAveiro "").cache) =
      ⟨(get_location_name "AVR" locEnvAveiro "").result,
       (get_location_name "AVR" locEnvAveiro "").result, false⟩ :=
  C6_idempotent_nonempty "AVR" locEnvAveiro locEnvAveiro (by decide)

/-- C7: dispatch degrades transparently (credentials configured): a
successful animated (.tgs) delivery is immediately followed by a separate
plain-text send of the notification's text; if the rich delivery fails at
the file open or at the post, or the notification has no asset at all
(`send_message_text` path), exactly one plain-text send of the text is
attempted instead; a successful static-photo delivery carries the caption
itself. -/
theorem C7_dispatch_degrades (env : Env) (caption path : String)
    (hc : env.configured = true) :
    (lowerExt path = ".tgs" → env.openOk path = true → env.postMediaOk path = true →
      send_telegram_media env caption path =
        [Ev.sendSticker path true, Ev.sendText caption (env.postTextOk caption)]) ∧
    (lowerExt path = ".tgs" → env.openOk path = true → env.postMediaOk path = false →
      send_telegram_media env caption path =
        [Ev.sendSticker path false, Ev.sendText caption (env.postTextOk caption)]) ∧
    (lowerExt path = ".tgs" → env.openOk path = false →
      send_telegram_media env caption path =
        [Ev.sendText caption (env.postTextOk caption)]) ∧
    (lowerExt path ≠ ".tgs" → env.openOk path = true → env.postMediaOk path = true →
      send_telegram_media env caption path = [Ev.sendPhoto path caption true]) ∧
    (lowerExt path ≠ ".tgs" → env.openOk path = true → env.postMediaOk path = false →
      send_telegram_media env caption path =
        [Ev.sendPhoto path caption false, Ev.sendText caption (env.postTextOk caption)]) ∧
    (lowerExt path ≠ ".tgs" → env.openOk path = false →
      send_telegram_media env caption path =
        [Ev.sendText caption (env.postTextOk caption)]) ∧
    send_message_text env caption = [Ev.sendText caption (env.postTextOk caption)] := by
  refine ⟨fun he ho hp => ?_, fun he ho hp => ?_, fun he ho => ?_,
    fun he ho hp => ?_, fun he ho hp => ?_, fun he ho => ?_, ?_⟩ <;>
    simp [send_telegram_media, send_message_text, hc, *]

/-- Witness for C7: a configured all-success environment delivering a
sticker, followed by the separate text send. -/
theorem C7_dispatch_degrades_w :
    send_telegram_media envAll "Previsão" "images/wind.tgs" =
      [Ev.sendSticker "images/wind.tgs" true, Ev.sendText "Previsão" true] :=
  (C7_dispatch_degrades envAll "Previsão" "images/wind.tgs" rfl).1 (by decide) rfl rfl

/-- C8: the asset locator zero-pads single-digit codes to two digits,
checks the animated `.tgs` candidate before the static `.png` one, returns
the animated candidate whenever it exists (in particular when both do), and
returns `none` rather than failing when neither exists. -/
theorem C8_asset_priority (ex : String → Bool) (wid : Int) :
    (ex ("images/" ++ imageBase wid ++ ".tgs") = true →
      get_local_image_path ex wid = some ("images/" ++ imageBase wid ++ ".tgs")) ∧
    (ex ("images/" ++ imageBase wid ++ ".tgs") = false →
      ex ("images/" ++ imageBase wid ++ ".png") = true →
      get_local_image_path ex wid = some ("images/" ++ imageBase wid ++ ".png")) ∧
    (ex ("images/" ++ imageBase wid ++ ".tgs") = false →
      ex ("images/" ++ imageBase wid ++ ".png") = false →
      get_local_image_path ex wid = none) ∧
    (0 ≤ wid → wid < 10 →
      imageBase wid = "w_ic_d_" ++ "0" ++ toString wid ∧
      ("0" ++ toString wid).length = 2) := by
  refine ⟨fun h1 => ?_, fun h1 h2 => ?_, fun h1 h2 => ?_, fun h1 h2 => ?_⟩
  · simp [get_local_image_path, h1]
  · simp [get_local_image_path, h1, h2]
  · simp [get_local_image_path, h1, h2]
  · interval_cases wid <;> exact ⟨by decide, by decide⟩

/-- Witness for C8: with every candidate existing, code 3 resolves to the
animated two-digit-padded candidate. -/
theorem C8_asset_priority_w :
    get_local_image_path (fun _ => true) 3 =
      some ("images/" ++ imageBase 3 ++ ".tgs") ∧
    imageBase 3 = "w_ic_d_" ++ "0" ++ toString (3 : Int) ∧
    ("0" ++ toString (3 : Int)).length = 2 := by
  have h := C8_asset_priority (fun _ => true) 3
  exact ⟨h.1 rfl, (h.2.2.2 (by decide) (by decide)).1, (h.2.2.2 (by decide) (by decide)).2⟩

/-- C9 counterexample: the empty-string wind code normalizes via
`int("".strip())`, which raises, so `resolve_wind_desc` returns the raw
string unchanged — the empty string — contradicting the claim that the
result is never empty. -/
theorem C9_cex : resolve_wind_desc [((1 : Int), "Fraco")] "" = "" := by decide

/-- C9 (amended): resolving a wind code never raises: a code that
normalizes to a mapped integer yields the mapped description, a code that
normalizes to an unmapped integer (in particular when the mapping is the
empty fallback) yields the stringified raw code, and a non-numeric code is
returned in its string form unchanged — which is empty exactly when the raw
string itself is empty. -/
theorem C9_wind_resolution (windMap : List (Int × String)) (raw : String) :
    (parsePyInt (pyStrip raw) = none → resolve_wind_desc windMap raw = raw) ∧
    (∀ n d, parsePyInt (pyStrip raw) = some n → windMap.lookup n = some d →
      resolve_wind_desc windMap raw = d) ∧
    (∀ n, parsePyInt (pyStrip raw) = some n → windMap.lookup n = none →
      resolve_wind_desc windMap raw = raw) := by
  refine ⟨fun h => ?_, fun n d h1 h2 => ?_, fun n h1 h2 => ?_⟩
  · unfold resolve_wind_desc; rw [h]
  · unfold resolve_wind_desc; rw [h1]; simp [h2]
  · unfold resolve_wind_desc; rw [h1]; simp [h2]

/-- Witness for C9 (amended): a numeric string with surrounding whitespace
resolves through the mapping. -/
theorem C9_wind_resolution_w :
    resolve_wind_desc [((2 : Int), "Fraco")] " 2 " = "Fraco" :=
  (C9_wind_resolution [((2 : Int), "Fraco")] " 2 ").2.1 2 "Fraco" (by decide) (by decide)

/-- C10: the relevance filter compares the severity level case-sensitively
against the lowercase literal "green": a record whose level is "GREEN" or
"Green" passes the filter and produces a notification, while the label
mapping later upper-cases the level and renders the green label. -/
theorem C10_filter_case_sensitive (env : Env) (areaId loc tn st et tx lv : String)
    (hlv : lv = "GREEN" ∨ lv = "Green") :
    relevant_filter areaId
        [⟨some areaId, some tn, some lv, some st, some et, some tx⟩] =
      Except.ok [⟨some areaId, some tn, some lv, some st, some et, some tx⟩] ∧
    (job_warnings env areaId loc []
        [⟨some areaId, some tn, some lv, some st, some et, some tx⟩]).notifs.map
        Prod.fst =
      [⟨some areaId, some tn, some lv, some st, some et, some tx⟩] ∧
    awareness_label lv = "🟢 Alerta Verde" := by
  have hg : ¬((lv == "green") = true) := by
    rcases hlv with h | h <;> subst h <;> decide
  have hfil : relevant_filter areaId
      [⟨some areaId, some tn, some lv, some st, some et, some tx⟩] =
      Except.ok [⟨some areaId, some tn, some lv, some st, some et, some tx⟩] := by
    simp only [relevant_filter]
    rw [if_pos (beq_self_eq_true areaId)]
    rw [if_neg hg]
    rfl
  refine ⟨hfil, ?_, ?_⟩
  · unfold job_warnings
    rw [hfil]
    simp [job_warnings_loop]
  · rcases hlv with h | h <;> subst h <;> decide

/-- Witness for C10 at a concrete "GREEN" record. -/
theorem C10_filter_case_sensitive_w :
    (job_warnings envNoAssets "AVR" "Aveiro" []
        [⟨some "AVR", some "Vento", some "GREEN", some "2024-01-01T10:00:00",
          some "2024-01-01T18:00:00", some "Aviso"⟩]).notifs.map Prod.fst =
      [⟨some "AVR", some "Vento", some "GREEN", some "2024-01-01T10:00:00",
        some "2024-01-01T18:00:00", some "Aviso"⟩] ∧
    awareness_label "GREEN" = "🟢 Alerta Verde" := by
  have h := C10_filter_case_sensitive envNoAssets "AVR" "Aveiro" "Vento"
    "2024-01-01T10:00:00" "2024-01-01T18:00:00" "Aviso" "GREEN" (Or.inl rfl)
  exact ⟨h.2.1, h.2.2⟩

set_option maxRecDepth 400000 in
/-- C1 counterexample: two records share area "AVR", type "Vento" and start
time, differing in severity ("green" vs "orange"), end time and text.  The
first one encountered is dropped by the relevance filter, so the cycle
builds and dispatches a notification for the second — the claim that only
the first of two same-identity records is ever notified is false. -/
theorem C1_cex :
    (job_warnings envNoAssets "AVR" "Aveiro" [] [cwGreen1, cwOrange2]).notifs.map
        Prod.fst = [cwOrange2] ∧
    cwOrange2 ≠ cwGreen1 := by
  constructor
  · decide
  · decide

/-- C1 (amended): among same-identity records, only the first one
encountered that passes the relevance filter can be notified: if `w1`
precedes `w2` in the feed, shares its area id, warning-type name and raw
start-time string, and passes the filter (matching area, severity level
other than "green"), then no notification is ever built for the distinct
later record `w2` in that cycle. -/
theorem C1_dedup_first_relevant (env : Env) (areaId loc : String)
    (seen : List String) (xs ys : List RawWarning) (w1 w2 : RawWarning) (m : String)
    (ha : w2.idAreaAviso = w1.idAreaAviso)
    (ht : w2.awarenessTypeName = w1.awarenessTypeName)
    (hs : w2.startTime = w1.startTime)
    (harea : w1.idAreaAviso = some areaId)
    (hlv : ∃ lv, w1.awarenessLevelID = some lv ∧ lv ≠ "green")
    (hne : w2 ≠ w1) (hxs : w2 ∉ xs) :
    (w2, m) ∉ (job_warnings env areaId loc seen (xs ++ w1 :: ys)).notifs := by
  have hid : identOf w2 = identOf w1 := by
    unfold identOf; rw [ha, ht, hs]
  obtain ⟨lv1, hlv1, hlv1ne⟩ := hlv
  have hb2 : ¬((lv1 == "green") = true) := by
    rw [beq_eq_false_iff_ne.mpr hlv1ne]; exact Bool.false_ne_true
  have hfw : relevant_filter areaId (w1 :: ys) =
      (relevant_filter areaId ys).map (fun l => w1 :: l) := by
    simp only [relevant_filter, harea]
    rw [if_pos (beq_self_eq_true areaId), hlv1]
    dsimp only
    rw [if_neg hb2]
  have happ := relevant_filter_append areaId xs (w1 :: ys)
  rw [hfw] at happ
  intro hmem
  unfold job_warnings at hmem
  cases hfx : relevant_filter areaId xs with
  | error e =>
    rw [hfx] at happ
    dsimp only at happ
    rw [happ] at hmem
    simp at hmem
  | ok fxs =>
    rw [hfx] at happ
    dsimp only at happ
    cases hfy : relevant_filter areaId ys with
    | error e =>
      rw [hfy] at happ
      simp only [Except.map] at happ
      rw [happ] at hmem
      simp at hmem
    | ok fys =>
      rw [hfy] at happ
      simp only [Except.map] at happ
      rw [happ] at hmem
      have hw2fxs : w2 ∉ fxs := fun hc =>
        hxs (relevant_filter_mem areaId xs fxs hfx w2 hc).1
      cases fxs with
      | nil =>
        simp only [List.nil_append] at hmem
        try dsimp only at hmem
        exact job_warnings_loop_first env loc [] seen fys w1 w2 m hid hne
          (List.not_mem_nil w2) hmem
      | cons f fs =>
        simp only [List.cons_append] at hmem
        try dsimp only at hmem
        exact job_warnings_loop_first env loc (f :: fs) seen fys w1 w2 m hid hne
          hw2fxs hmem

/-- Witness for C1 (amended): with an orange first record and a
same-identity second record, the second is suppressed. -/
theorem C1_dedup_first_relevant_w :
    (cwOrange2, "m") ∉ (job_warnings envNoAssets "AVR" "Aveiro" []
      ([] ++ cwOrangeA :: [cwOrange2])).notifs :=
  C1_dedup_first_relevant envNoAssets "AVR" "Aveiro" [] [] [cwOrange2]
    cwOrangeA cwOrange2 "m" rfl rfl rfl rfl ⟨"orange", rfl, by decide⟩
    (by decide) (List.not_mem_nil cwOrange2)

set_option maxRecDepth 400000 in
/-- C2 counterexample: on a concrete cycle the cache-marking event follows
the dispatch event — `sent_warnings_cache.add` runs at line 375, after the
send at lines 370-374 has returned — refuting the claim that the identity
is added immediately after building and before dispatch. -/
theorem C2_cex :
    (job_warnings envNoAssets "AVR" "Aveiro" [] [cwOrangeA]).events =
      [Ev.sendText (warning_msg "Aveiro" "Vento" "🟠 Alerta Laranja"
        "10:00 01-01-2024" "18:00 01-01-2024" "Vento forte") true,
       Ev.markSeen "AVR_Vento_2024-01-01T10:00:00"] := by decide

/-- C2 (amended): the identity is added to the seen set immediately after
the dispatch call returns; both dispatch paths swallow every failure, so
for every environment (any pattern of dispatch success or failure) each
notified record's identity ends up in the seen set, identities notified in
one cycle are pairwise distinct and absent from the incoming seen set, and
no later cycle run from the resulting seen set ever notifies that identity
again. -/
theorem C2_seen_regardless (env : Env) (areaId loc : String) (seen : List String)
    (data : List RawWarning) (p : RawWarning × String)
    (hp : p ∈ (job_warnings env areaId loc seen data).notifs) :
    identOf p.1 ∈ (job_warnings env areaId loc seen data).seen ∧
    identOf p.1 ∉ seen ∧
    ((job_warnings env areaId loc seen data).notifs.map (fun q => identOf q.1)).Nodup ∧
    ∀ (env2 : Env) (areaId2 loc2 : String) (data2 : List RawWarning)
      (q : RawWarning × String),
      q ∈ (job_warnings env2 areaId2 loc2
            (job_warnings env areaId loc seen data).seen data2).notifs →
      identOf q.1 ≠ identOf p.1 := by
  refine ⟨?_, (job_warnings_mem env areaId loc seen data p hp).1,
    job_warnings_nodup env areaId loc seen data, ?_⟩
  · rw [job_warnings_seen]
    exact List.mem_append_right _ (List.mem_map.mpr ⟨p, hp, rfl⟩)
  · intro env2 areaId2 loc2 data2 q hq heq
    apply (job_warnings_mem env2 areaId2 loc2 _ data2 q hq).1
    rw [heq, job_warnings_seen]
    exact List.mem_append_right _ (List.mem_map.mpr ⟨p, hp, rfl⟩)

set_option maxRecDepth 400000 in
/-- Witness for C2 (amended) on a concrete notified record. -/
theorem C2_seen_regardless_w :
    identOf cwOrangeA ∈ (job_warnings envNoAssets "AVR" "Aveiro" [] [cwOrangeA]).seen :=
  (C2_seen_regardless envNoAssets "AVR" "Aveiro" [] [cwOrangeA]
    (cwOrangeA, warning_msg "Aveiro" "Vento" "🟠 Alerta Laranja"
      "10:00 01-01-2024" "18:00 01-01-2024" "Vento forte") (by decide)).1

set_option maxRecDepth 400000 in
/-- C4 counterexample: a record whose `text` key is absent raises past the
per-field handlers; the cycle's outer handler catches it, so the record and
every remaining record of the cycle are skipped (the third record, notified
when the malformed one is removed, is not processed) — the claim that a
record with an absent field never aborts the record or the rest of the
cycle is false. -/
theorem C4_cex :
    (job_warnings envNoAssets "AVR" "Aveiro" []
        [cwOrangeA, cwNoText, cwYellow3]).notifs.map Prod.fst = [cwOrangeA] ∧
    (job_warnings envNoAssets "AVR" "Aveiro" []
        [cwOrangeA, cwNoText, cwYellow3]).aborted = true ∧
    (job_warnings envNoAssets "AVR" "Aveiro" []
        [cwOrangeA, cwYellow3]).notifs.map Prod.fst = [cwOrangeA, cwYellow3] := by
  refine ⟨by decide, by decide, by decide⟩

/-- C4 (amended): a warning record whose fields are all present but whose
date fields are unparsable degrades field-by-field — each timestamp falls
back to the raw string with the literal "T" separator replaced — and the
record is still notified; a cycle whose records all have their fields
present never aborts.  (Only an absent field aborts the cycle.) -/
theorem C4_degrade_vs_abort (env : Env) (areaId loc : String) (seen : List String)
    (data : List RawWarning) (a tn lv st et tx : String) :
    ((∀ w ∈ data, fieldsPresent w = true) →
      (job_warnings env areaId loc seen data).aborted = false) ∧
    (lv ≠ "green" →
      (a ++ "_" ++ tn ++ "_" ++ st) ∉ seen →
      strptimeDT st = none → strptimeDT et = none →
      (job_warnings env a loc seen
          [⟨some a, some tn, some lv, some st, some et, some tx⟩]).notifs =
        [(⟨some a, some tn, some lv, some st, some et, some tx⟩,
          warning_msg loc tn (awareness_label lv)
            (⟨st.data.map (fun c => if c = 'T' then ' ' else c)⟩)
            (⟨et.data.map (fun c => if c = 'T' then ' ' else c)⟩) tx)]) := by
  constructor
  · intro hws
    have hpres : ∀ w ∈ data, w.idAreaAviso.isSome ∧ w.awarenessLevelID.isSome := by
      intro w hw
      have := hws w hw
      simp only [fieldsPresent, Bool.and_eq_true] at this
      exact ⟨this.1.1.1.1.1, this.1.1.1.2⟩
    obtain ⟨l, hl⟩ := relevant_filter_ok areaId data hpres
    unfold job_warnings
    rw [hl]
    cases l with
    | nil => rfl
    | cons r rs =>
      exact job_warnings_loop_no_abort env loc (r :: rs) seen
        (fun w hw => hws w (relevant_filter_mem areaId data _ hl w hw).1)
  · intro hlvne hseen hst het
    have hb2 : ¬((lv == "green") = true) := by
      rw [beq_eq_false_iff_ne.mpr hlvne]; exact Bool.false_ne_true
    have hfil : relevant_filter a
        [⟨some a, some tn, some lv, some st, some et, some tx⟩] =
        Except.ok [⟨some a, some tn, some lv, some st, some et, some tx⟩] := by
      simp only [relevant_filter]
      rw [if_pos (beq_self_eq_true a)]
      rw [if_neg hb2]
      rfl
    unfold job_warnings
    rw [hfil]
    simp only [job_warnings_loop, if_neg hseen]
    simp [prettyWarnTime, hst, het]

set_option maxRecDepth 400000 in
/-- Witness for C4 (amended): a fully-present cycle does not abort, and a
record with unparsable timestamps is notified with the best-effort
substitutes. -/
theorem C4_degrade_vs_abort_w :
    (job_warnings envNoAssets "AVR" "Aveiro" [] [cwOrangeA]).aborted = false ∧
    (job_warnings envNoAssets "AVR" "Aveiro" []
        [⟨some "AVR", some "Vento", some "orange", some "amanhaT10h",
          some "logoT18h", some "Vento"⟩]).notifs =
      [(⟨some "AVR", some "Vento", some "orange", some "amanhaT10h",
         some "logoT18h", some "Vento"⟩,
        warning_msg "Aveiro" "Vento" (awareness_label "orange")
          (⟨"amanhaT10h".data.map (fun c => if c = 'T' then ' ' else c)⟩)
          (⟨"logoT18h".data.map (fun c => if c = 'T' then ' ' else c)⟩) "Vento")] := by
  have h := C4_degrade_vs_abort envNoAssets "AVR" "Aveiro" [] [cwOrangeA]
    "AVR" "Vento" "orange" "amanhaT10h" "logoT18h" "Vento"
  exact ⟨h.1 (by decide), h.2 (by decide) (by decide) (by decide) (by decide)⟩

end TGF
